import Mathlib

/-!
Verification of `cmd/grpcurl/grpcurl.go` (the grpcurl command-line client).

Shallow embedding conventions:
* Go functions returning `(T, error)` become Lean functions returning
  `Except String T`; a `nil` error is `.ok`, a non-nil error is `.error`.
* The two underlying descriptor sources of `compositeSource` are modelled as
  records of pure result-producing functions; the composite's methods are
  translated line by line from the Go method bodies.
* The parts of the Go standard library `net/url` that `parseTarget` calls
  (`url.Parse`, `URL.Hostname`, `URL.Port`) are external to this repository;
  the parse result is therefore a parameter (`Option GoURL`), and
  `Hostname`/`Port` are modelled from the documented behaviour of
  `net/url.splitHostPort`.
-/

set_option maxRecDepth 4096

instance {ε α : Type} [DecidableEq ε] [DecidableEq α] : DecidableEq (Except ε α) := fun x y =>
  match x, y with
  | .ok a, .ok b =>
      if h : a = b then isTrue (by rw [h])
      else isFalse (fun hc => h (by cases hc; rfl))
  | .error a, .error b =>
      if h : a = b then isTrue (by rw [h])
      else isFalse (fun hc => h (by cases hc; rfl))
  | .ok _, .error _ => isFalse (fun hc => Except.noConfusion hc)
  | .error _, .ok _ => isFalse (fun hc => Except.noConfusion hc)

namespace Grpcurl

/-! ## Descriptor sources and `compositeSource` (grpcurl.go lines 247-288) -/

/-- A protobuf field descriptor, as far as the composite source inspects it:
`GetNumber` (the extension field tag, an `int32` in Go — tag values are small,
so no wrap-around modelling is needed) plus an identifying name so distinct
extensions with equal tags can be told apart. -/
structure FieldDesc where
  number : Int
  name : String
deriving Repr, DecidableEq

/-- An abstract `desc.Descriptor` as returned by `FindSymbol`; the composite
source only passes it through, so only an identity is kept. -/
structure Descriptor where
  fullyQualifiedName : String
deriving Repr, DecidableEq

/-- A `grpcurl.DescriptorSource` (capability interface): the three methods the
composite source delegates to, each modelled as a pure result. -/
structure DescriptorSource where
  listServices : Except String (List String)
  findSymbol : String → Except String Descriptor
  allExtensionsForType : String → Except String (List FieldDesc)

/-- `compositeSource` (grpcurl.go line 249): wraps a reflection source and a
file source. -/
structure compositeSource where
  reflection : DescriptorSource
  file : DescriptorSource

/-- `compositeSource.ListServices` (grpcurl.go lines 254-256): delegates to the
reflection source only. -/
def compositeSource.ListServices (cs : compositeSource) : Except String (List String) :=
  cs.reflection.listServices

/-- `compositeSource.FindSymbol` (grpcurl.go lines 258-264): reflection first;
on any reflection error, return the file source result verbatim. -/
def compositeSource.FindSymbol (cs : compositeSource) (fullyQualifiedName : String) :
    Except String Descriptor :=
  match cs.reflection.findSymbol fullyQualifiedName with
  | .ok d => .ok d
  | .error _ => cs.file.findSymbol fullyQualifiedName

/-- `compositeSource.AllExtensionsForType` (grpcurl.go lines 266-288): query
reflection; on error fall back to the file source.  Otherwise record the tag
numbers reflection produced, query the file source, swallow a file-source
error, and append each file extension whose tag number was not produced by
reflection (the Go code builds the `tags` map from the reflection list before
the append loop and never updates it, so the append is a filter of the file
list against the reflection tags). -/
def compositeSource.AllExtensionsForType (cs : compositeSource) (typeName : String) :
    Except String (List FieldDesc) :=
  match cs.reflection.allExtensionsForType typeName with
  | .error _ => cs.file.allExtensionsForType typeName
  | .ok exts =>
    let tags : List Int := exts.map FieldDesc.number
    match cs.file.allExtensionsForType typeName with
    | .error _ => .ok exts
    | .ok fileExts => .ok (exts ++ fileExts.filter (fun ext => !(tags.contains ext.number)))

/-! ## Status-to-exit-code mapping (grpcurl.go lines 38-41 and 1000-1007) -/

/-- grpcurl.go line 41: the offset applied to gRPC status codes before use as
process exit codes. -/
def statusCodeOffset : Nat := 64

/-- grpcurl.go lines 1000-1007: after an invocation completes, if the terminal
status code is not `codes.OK` (numeric value 0) the process exits with
`statusCodeOffset + code`; a status of OK does not take this exit path
(`none`). -/
def exitCodeForStatus (code : Nat) : Option Nat :=
  if code != 0 then some (statusCodeOffset + code) else none

/-! ## Target parsing (grpcurl.go lines 316-436)

`parseTarget` calls the Go standard library `net/url`: `url.Parse` to obtain a
`*url.URL`, and the `Hostname()` / `Port()` accessors on it.  Those are
external to this repository, so the parse result is passed in as a parameter
(`none` models a `url.Parse` error), and `Hostname` / `Port` are modelled
below from `net/url.splitHostPort`. -/

/-- The fields of a Go `url.URL` that `parseTarget` reads: `Scheme`, `Host`
(which, as in Go, still carries any `:port` suffix and any IPv6 brackets),
`Path`, `RawQuery`, `Fragment`. -/
structure GoURL where
  scheme : String
  host : String
  path : String
  rawQuery : String
  fragment : String
deriving Repr, DecidableEq

/-- `strings.HasPrefix`, structurally on the character lists (so that concrete
instances reduce in the kernel). -/
def hasPrefixChars : List Char → List Char → Bool
  | _, [] => true
  | [], _ :: _ => false
  | c :: cs, p :: ps => c == p && hasPrefixChars cs ps

/-- `strings.HasPrefix` on strings. -/
def strStartsWith (s pre : String) : Bool :=
  hasPrefixChars s.toList pre.toList

/-- Index of the last occurrence of `c`, as `strings.LastIndexByte`. -/
def lastIndexOf (c : Char) : List Char → Option Nat
  | [] => none
  | x :: xs =>
    match lastIndexOf c xs with
    | some i => some (i + 1)
    | none => if x = c then some 0 else none

/-- `net/url.validOptionalPort`: empty, or a colon followed by only digits. -/
def validOptionalPort (port : List Char) : Bool :=
  match port with
  | [] => true
  | c :: rest => c == ':' && rest.all (fun b => '0' ≤ b && b ≤ '9')

/-- `net/url.splitHostPort`: split off a valid `:port` suffix at the last
colon, then strip one pair of enclosing square brackets from the host part
(IPv6 literals). -/
def splitHostPort (hostPort : String) : String × String :=
  let cs := hostPort.toList
  let hp : List Char × List Char :=
    match lastIndexOf ':' cs with
    | some i => if validOptionalPort (cs.drop i) then (cs.take i, cs.drop (i + 1)) else (cs, [])
    | none => (cs, [])
  let host :=
    if hp.1.head? == some '[' && hp.1.getLast? == some ']' then
      (hp.1.drop 1).dropLast
    else hp.1
  (⟨host⟩, ⟨hp.2⟩)

/-- Go `url.URL.Hostname()`: host without port and without IPv6 brackets. -/
def GoURL.hostname (u : GoURL) : String := (splitHostPort u.host).1

/-- Go `url.URL.portOf()` accessor `Port()`: the port part of `Host`, possibly
empty. -/
def GoURL.portString (u : GoURL) : String := (splitHostPort u.host).2

/-- `parsedTarget` (grpcurl.go lines 317-325). -/
structure parsedTarget where
  address : String
  scheme : String
  host : String
  port : String
  path : String
  useTLS : Bool
  wasURL : Bool
deriving Repr, DecidableEq

/-- `parseTarget` (grpcurl.go lines 328-436), with the result of `url.Parse`
passed in as `parsed` (`none` models a parse error).  Every `return` in the Go
function carries a `nil` error, so every branch here is `.ok`. -/
def parseTargetWith (target : String) (parsed : Option GoURL) : Except String parsedTarget :=
  -- lines 330-340: unix:// and xds:/// targets pass through untouched
  if strStartsWith target "unix://" || strStartsWith target "xds:///" then
    .ok { address := target, scheme := "", host := target, port := "", path := "",
          useTLS := false, wasURL := false }
  else
    match parsed with
    -- lines 343-355: url.Parse error, treat as host:port
    | none =>
      .ok { address := target, scheme := "", host := target, port := "", path := "",
            useTLS := false, wasURL := false }
    | some p =>
      -- lines 358-383: a scheme that is neither empty nor http nor https
      if p.scheme != "" && p.scheme != "http" && p.scheme != "https" then
        if p.host == "" && p.path == "" && p.rawQuery == "" && p.fragment == "" then
          -- lines 360-371: host:port misread as scheme:path
          .ok { address := target, scheme := "", host := target, port := "", path := "",
                useTLS := false, wasURL := false }
        else
          -- lines 373-382: unknown scheme, pass through tagging the scheme
          .ok { address := target, scheme := p.scheme, host := target, port := "", path := "",
                useTLS := false, wasURL := false }
      -- lines 386-396: empty scheme, treat as host:port
      else if p.scheme == "" then
        .ok { address := target, scheme := "", host := target, port := "", path := "",
              useTLS := false, wasURL := false }
      -- lines 399-424: http or https URL
      else if p.scheme == "http" || p.scheme == "https" then
        let host := p.hostname
        let port := p.portString
        let port := if port == "" then (if p.scheme == "https" then "443" else "80") else port
        let address := host ++ ":" ++ port
        .ok { address := address, scheme := p.scheme, host := host, port := port,
              path := p.path, useTLS := p.scheme == "https", wasURL := true }
      else
        -- lines 427-435: unreachable fallback, treat as host:port
        .ok { address := target, scheme := "", host := target, port := "", path := "",
              useTLS := false, wasURL := false }

/-! ## Transport negotiation and flag validation (grpcurl.go lines 557-609) -/

/-- The command-line flags that the transport-selection and validation code at
grpcurl.go lines 557-609 reads.  (The numeric flags checked at lines 577-588,
connect-timeout, keepalive-time, max-time, max-msg-sz, are float or size
values independent of transport mode and are not modelled; no claim concerns
them.)  Flag defaults: `false` for booleans, empty for strings and lists. -/
structure Flags where
  plaintext : Bool
  usealts : Bool
  insecure : Bool
  cert : String
  key : String
  serverName : String
  authority : String
  altsHandshakerServiceAddress : String
  altsTargetServiceAccounts : List String
deriving Repr, DecidableEq

/-- The transport mode variables computed at grpcurl.go lines 557-574. -/
structure TransportMode where
  usetls : Bool
  forcePlaintext : Bool
deriving Repr, DecidableEq

/-- grpcurl.go lines 557-574: default to TLS unless -plaintext or -alts; then,
when the target was parsed as a URL, an https scheme together with -plaintext
or -alts is a fatal error, an http scheme with neither flag forces plaintext,
and an https scheme with neither flag keeps TLS. -/
def resolveTransport (fl : Flags) (parsedAddr : Option parsedTarget) :
    Except String TransportMode :=
  let usetls := !fl.plaintext && !fl.usealts
  let forcePlaintext := fl.plaintext
  match parsedAddr with
  | some pa =>
    if pa.wasURL then
      if pa.useTLS && (fl.plaintext || fl.usealts) then
        .error "Target URL scheme https requires TLS but -plaintext or -alts flag is set."
      else if !pa.useTLS && !fl.plaintext && !fl.usealts then
        .ok { usetls := false, forcePlaintext := true }
      else if pa.useTLS && !fl.plaintext && !fl.usealts then
        .ok { usetls := true, forcePlaintext := forcePlaintext }
      else
        .ok { usetls := usetls, forcePlaintext := forcePlaintext }
    else
      .ok { usetls := usetls, forcePlaintext := forcePlaintext }
  | none => .ok { usetls := usetls, forcePlaintext := forcePlaintext }

/-- grpcurl.go lines 589-609: the transport-related flag checks, in source
order.  Note that the -servername flag is never examined here (its own help
text says it is ignored when -plaintext or -insecure is used). -/
def validateTransportFlags (fl : Flags) (usetls : Bool) : Except String Unit :=
  if fl.plaintext && fl.usealts then
    .error "The -plaintext and -alts arguments are mutually exclusive."
  else if fl.insecure && !usetls then
    .error "The -insecure argument can only be used with TLS."
  else if fl.cert != "" && !usetls then
    .error "The -cert argument can only be used with TLS."
  else if fl.key != "" && !usetls then
    .error "The -key argument can only be used with TLS."
  else if (fl.key == "") != (fl.cert == "") then
    .error "The -cert and -key arguments must be used together and both be present."
  else if fl.altsHandshakerServiceAddress != "" && !fl.usealts then
    .error "The -alts-handshaker-service argument must be used with the -alts argument."
  else if !fl.altsTargetServiceAccounts.isEmpty && !fl.usealts then
    .error "The -alts-target-service-account argument must be used with the -alts argument."
  else .ok ()

/-- grpcurl.go lines 557-609 in sequence: transport-mode resolution (which can
fail at line 564), then the flag validation checks.  All of this runs in
`main` before the `dial` closure is ever invoked (lines 617, 771, 950), so any
error here is reported before a dial is attempted. -/
def negotiateTransport (fl : Flags) (parsedAddr : Option parsedTarget) :
    Except String TransportMode :=
  match resolveTransport fl parsedAddr with
  | .error e => .error e
  | .ok tm =>
    match validateTransportFlags fl tm.usetls with
    | .error e => .error e
    | .ok _ => .ok tm

/-! ## TLS server name override (grpcurl.go lines 658-671) -/

/-- grpcurl.go lines 667-671, inside the `usetls` branch of `dial`: after
`grpcurl.ClientTLSConfig` builds the TLS configuration (whose ServerName field
is `orig` here), if the target was parsed as a URL with a path other than
empty or a bare slash, the ServerName used for certificate verification is
overwritten with the parsed hostname.  No flag is consulted: this happens
whether or not -servername or -authority was supplied (those only affect the
`WithAuthority` dial option at lines 684-699). -/
def tlsServerName (orig : String) (parsedAddr : Option parsedTarget) : String :=
  match parsedAddr with
  | some pa =>
    if pa.wasURL && pa.path != "" && pa.path != "/" then pa.host else orig
  | none => orig

/-! ## Theorems -/

/-- C1: `compositeSource.AllExtensionsForType`: if the reflection query fails,
the result is exactly the file source result (success or failure); if
reflection succeeds and the file query fails, the result is the reflection
extensions alone with the file error swallowed; if both succeed, the result is
all reflection extensions followed by every file extension whose tag number
does not occur among the reflection extensions (ties on tag number resolve to
the reflection extension). -/
theorem C1_allExtensionsForType_merge (cs : compositeSource) (t : String) :
    (∀ e, cs.reflection.allExtensionsForType t = .error e →
        cs.AllExtensionsForType t = cs.file.allExtensionsForType t) ∧
    (∀ exts e, cs.reflection.allExtensionsForType t = .ok exts →
        cs.file.allExtensionsForType t = .error e →
        cs.AllExtensionsForType t = .ok exts) ∧
    (∀ exts fileExts, cs.reflection.allExtensionsForType t = .ok exts →
        cs.file.allExtensionsForType t = .ok fileExts →
        cs.AllExtensionsForType t =
          .ok (exts ++ fileExts.filter
            (fun ext => !((exts.map FieldDesc.number).contains ext.number)))) := by
  refine ⟨?_, ?_, ?_⟩
  · intro e h
    simp only [compositeSource.AllExtensionsForType, h]
  · intro exts e h1 h2
    simp only [compositeSource.AllExtensionsForType, h1, h2]
  · intro exts fileExts h1 h2
    simp only [compositeSource.AllExtensionsForType, h1, h2]

/-- C1 witness: the spec example — reflection yields tag 5, the file source
yields tags 5 and 7; the merge keeps reflection tag 5 and appends file tag 7,
discarding the file copy of tag 5. -/
theorem C1_allExtensionsForType_merge_witness :
    compositeSource.AllExtensionsForType
      ⟨{ listServices := .ok [], findSymbol := fun _ => .error "no symbol",
         allExtensionsForType := fun _ => .ok [⟨5, "refl5"⟩] },
       { listServices := .ok [], findSymbol := fun _ => .error "no symbol",
         allExtensionsForType := fun _ => .ok [⟨5, "file5"⟩, ⟨7, "file7"⟩] }⟩ "pkg.Msg" =
      .ok [⟨5, "refl5"⟩, ⟨7, "file7"⟩] := by
  have h := (C1_allExtensionsForType_merge
      ⟨{ listServices := .ok [], findSymbol := fun _ => .error "no symbol",
         allExtensionsForType := fun _ => .ok [⟨5, "refl5"⟩] },
       { listServices := .ok [], findSymbol := fun _ => .error "no symbol",
         allExtensionsForType := fun _ => .ok [⟨5, "file5"⟩, ⟨7, "file7"⟩] }⟩ "pkg.Msg").2.2
      [⟨5, "refl5"⟩] [⟨5, "file5"⟩, ⟨7, "file7"⟩] rfl rfl
  exact h.trans (by decide)

/-- C2: a terminal non-OK status of numeric code c maps to process exit code
64 + c, which never collides with exit code 1 (fatal error) or 2 (usage
error); a terminal OK status does not take this exit path. -/
theorem C2_exit_code_offset (c : Nat) :
    (c ≠ 0 → exitCodeForStatus c = some (64 + c) ∧ 64 + c ≠ 1 ∧ 64 + c ≠ 2) ∧
    (c = 0 → exitCodeForStatus c = none) := by
  constructor
  · intro h
    refine ⟨?_, by omega, by omega⟩
    simp [exitCodeForStatus, statusCodeOffset, h]
  · intro h
    simp [exitCodeForStatus, h]

/-- C2 witness: status code 5 exits with 69; status OK takes no exit code. -/
theorem C2_exit_code_offset_witness :
    exitCodeForStatus 5 = some 69 ∧ exitCodeForStatus 0 = none :=
  ⟨by simpa using ((C2_exit_code_offset 5).1 (by decide)).1,
   (C2_exit_code_offset 0).2 rfl⟩

/-- C5: `compositeSource.FindSymbol`: a reflection success is returned as-is;
on any reflection failure, with no distinction by error kind, the file source
result — descriptor or error — is returned verbatim. -/
theorem C5_findSymbol_fallback (cs : compositeSource) (name : String) :
    (∀ d, cs.reflection.findSymbol name = .ok d → cs.FindSymbol name = .ok d) ∧
    (∀ e, cs.reflection.findSymbol name = .error e →
        cs.FindSymbol name = cs.file.findSymbol name) := by
  constructor
  · intro d h
    simp only [compositeSource.FindSymbol, h]
  · intro e h
    simp only [compositeSource.FindSymbol, h]

/-- C5 witness: reflection not-found plus file-source success yields the file
source descriptor. -/
theorem C5_findSymbol_fallback_witness :
    compositeSource.FindSymbol
      ⟨{ listServices := .ok [], findSymbol := fun _ => .error "Symbol not found",
         allExtensionsForType := fun _ => .ok [] },
       { listServices := .ok [], findSymbol := fun n => .ok ⟨n⟩,
         allExtensionsForType := fun _ => .ok [] }⟩ "pkg.Svc" = .ok ⟨"pkg.Svc"⟩ :=
  ((C5_findSymbol_fallback
      ⟨{ listServices := .ok [], findSymbol := fun _ => .error "Symbol not found",
         allExtensionsForType := fun _ => .ok [] },
       { listServices := .ok [], findSymbol := fun n => .ok ⟨n⟩,
         allExtensionsForType := fun _ => .ok [] }⟩ "pkg.Svc").2 "Symbol not found" rfl).trans rfl

/-- C9: `compositeSource.ListServices` is exactly the reflection source
listing (result or error), so every service in a successful listing comes from
the reflection source; a service known only to the file source never
appears. -/
theorem C9_listServices_reflection_only (cs : compositeSource) :
    cs.ListServices = cs.reflection.listServices ∧
    (∀ svcs s, cs.ListServices = .ok svcs → s ∈ svcs →
      ∃ rs, cs.reflection.listServices = .ok rs ∧ s ∈ rs) := by
  refine ⟨rfl, ?_⟩
  intro svcs s h hm
  exact ⟨svcs, h, hm⟩

/-- C9 witness: with a file source exposing an extra service, the listing is
the reflection listing and the reflection-known service is traced back to the
reflection source. -/
theorem C9_listServices_reflection_only_witness :
    compositeSource.ListServices
      ⟨{ listServices := .ok ["live.Svc"], findSymbol := fun _ => .error "no symbol",
         allExtensionsForType := fun _ => .ok [] },
       { listServices := .ok ["live.Svc", "file.OnlySvc"], findSymbol := fun _ => .error "no symbol",
         allExtensionsForType := fun _ => .ok [] }⟩ = .ok ["live.Svc"] ∧
    ∃ rs, DescriptorSource.listServices
        { listServices := .ok ["live.Svc"], findSymbol := fun _ => .error "no symbol",
          allExtensionsForType := fun _ => .ok [] } = .ok rs ∧ "live.Svc" ∈ rs :=
  ⟨(C9_listServices_reflection_only
      ⟨{ listServices := .ok ["live.Svc"], findSymbol := fun _ => .error "no symbol",
         allExtensionsForType := fun _ => .ok [] },
       { listServices := .ok ["live.Svc", "file.OnlySvc"], findSymbol := fun _ => .error "no symbol",
         allExtensionsForType := fun _ => .ok [] }⟩).1.trans rfl,
   (C9_listServices_reflection_only
      ⟨{ listServices := .ok ["live.Svc"], findSymbol := fun _ => .error "no symbol",
         allExtensionsForType := fun _ => .ok [] },
       { listServices := .ok ["live.Svc", "file.OnlySvc"], findSymbol := fun _ => .error "no symbol",
         allExtensionsForType := fun _ => .ok [] }⟩).2 ["live.Svc"] "live.Svc" rfl (by simp)⟩

/-- C3: for every input whose URL parse yields scheme http or https (such an
input cannot carry the unix:// or xds:/// passthrough prefixes, handled
earlier in the function), `parseTarget` extracts host and port from the URL,
defaults the port to 80 for http and 443 for https when absent, recomposes the
address as host:port, sets useTLS exactly when the scheme is https, preserves
the URL path, and marks the result as a URL. -/
theorem C3_parseTarget_http_https (target : String) (p : GoURL)
    (hpre : (strStartsWith target "unix://" || strStartsWith target "xds:///") = false)
    (hs : p.scheme = "http" ∨ p.scheme = "https") :
    parseTargetWith target (some p) =
      .ok { address := p.hostname ++ ":" ++
              (if p.portString == "" then (if p.scheme == "https" then "443" else "80")
               else p.portString),
            scheme := p.scheme,
            host := p.hostname,
            port := (if p.portString == "" then (if p.scheme == "https" then "443" else "80")
                     else p.portString),
            path := p.path,
            useTLS := (p.scheme == "https"),
            wasURL := true } := by
  obtain ⟨s, h, pa, q, f⟩ := p
  rcases hs with h1 | h1 <;> simp_all [parseTargetWith, GoURL.hostname, GoURL.portString]

/-- C3 witness: the spec example, parseTarget of the URL
https://example.com/svc (whose url.Parse result has scheme https, host
example.com and path /svc). -/
theorem C3_parseTarget_http_https_witness :
    parseTargetWith "https://example.com/svc" (some ⟨"https", "example.com", "/svc", "", ""⟩) =
      .ok { address := "example.com:443", scheme := "https", host := "example.com",
            port := "443", path := "/svc", useTLS := true, wasURL := true } := by
  have h := C3_parseTarget_http_https "https://example.com/svc"
    ⟨"https", "example.com", "/svc", "", ""⟩ (by decide) (Or.inr rfl)
  exact h.trans (by decide)

/-- C4: transport-mode selection is asymmetric with respect to URL schemes.
For a target resolved as a URL with useTLS true (https), an explicit
-plaintext or -alts flag makes negotiation fail (the failure occurs in the
flag-processing phase of main, lines 557-609, before the dial closure is
invoked at lines 771 and 950).  For a target resolved as a URL with useTLS
false (http) and neither -plaintext nor -alts set (and the remaining
transport flags at their defaults), plaintext transport is selected
automatically with no error. -/
theorem C4_transport_scheme_asymmetry (fl : Flags) (pa : parsedTarget) :
    (pa.wasURL = true → pa.useTLS = true → (fl.plaintext = true ∨ fl.usealts = true) →
      ∃ e, negotiateTransport fl (some pa) = .error e) ∧
    (pa.wasURL = true → pa.useTLS = false → fl.plaintext = false → fl.usealts = false →
      fl.insecure = false → fl.cert = "" → fl.key = "" →
      fl.altsHandshakerServiceAddress = "" → fl.altsTargetServiceAccounts = [] →
      negotiateTransport fl (some pa) = .ok { usetls := false, forcePlaintext := true }) := by
  constructor
  · intro hw ht hf
    refine ⟨"Target URL scheme https requires TLS but -plaintext or -alts flag is set.", ?_⟩
    have hcond : (fl.plaintext || fl.usealts) = true := by
      rcases hf with h | h <;> simp [h]
    simp [negotiateTransport, resolveTransport, hw, ht, hcond]
  · intro hw ht h1 h2 h3 h4 h5 h6 h7
    simp [negotiateTransport, resolveTransport, validateTransportFlags, hw, ht,
      h1, h2, h3, h4, h5, h6, h7]

/-- C4 witness: an https URL target with -plaintext fails; an http URL target
with default flags negotiates plaintext without error. -/
theorem C4_transport_scheme_asymmetry_witness :
    (∃ e, negotiateTransport ⟨true, false, false, "", "", "", "", "", []⟩
        (some ⟨"example.com:443", "https", "example.com", "443", "/svc", true, true⟩) =
          .error e) ∧
    negotiateTransport ⟨false, false, false, "", "", "", "", "", []⟩
        (some ⟨"example.com:8080", "http", "example.com", "8080", "", false, true⟩) =
      .ok { usetls := false, forcePlaintext := true } :=
  ⟨(C4_transport_scheme_asymmetry _ _).1 rfl rfl (Or.inl rfl),
   (C4_transport_scheme_asymmetry _ _).2 rfl rfl rfl rfl rfl rfl rfl rfl rfl⟩

/-- C6: `parseTarget` never fails — for every input string and every outcome
of the external URL parse it returns `.ok`; and when the input does not parse
as a recognized URL (parse error, or any scheme other than http and https,
which covers the bare host:port misread as a scheme with empty host, path,
query and fragment), the result degrades to opaque passthrough: address equals
the original string, wasURL is false, useTLS is false. -/
theorem C6_parseTarget_total_passthrough (target : String) (u : Option GoURL) :
    (∃ r, parseTargetWith target u = .ok r) ∧
    (u = none → ∃ r, parseTargetWith target u = .ok r ∧
        r.address = target ∧ r.wasURL = false ∧ r.useTLS = false) ∧
    (∀ p, u = some p → p.scheme ≠ "http" → p.scheme ≠ "https" →
      ∃ r, parseTargetWith target u = .ok r ∧
        r.address = target ∧ r.wasURL = false ∧ r.useTLS = false) := by
  refine ⟨?_, ?_, ?_⟩
  · unfold parseTargetWith
    repeat' split
    all_goals exact ⟨_, rfl⟩
  · intro hu
    subst hu
    unfold parseTargetWith
    split
    · exact ⟨_, rfl, rfl, rfl, rfl⟩
    · exact ⟨_, rfl, rfl, rfl, rfl⟩
  · intro p hp h1 h2
    subst hp
    have h1b : (p.scheme == "http") = false := beq_eq_false_iff_ne.mpr h1
    have h2b : (p.scheme == "https") = false := beq_eq_false_iff_ne.mpr h2
    unfold parseTargetWith
    simp only [bne, h1b, h2b, Bool.not_false, Bool.and_true, Bool.or_self, Bool.false_or,
      Bool.or_false, Bool.false_eq_true, if_false]
    repeat' split
    all_goals exact ⟨_, rfl, rfl, rfl, rfl⟩

/-- C6 witness: the spec example — the bare address myhost:1234, whose URL
parse misreads it as scheme myhost with empty host, path, query and fragment,
degrades to opaque passthrough. -/
theorem C6_parseTarget_total_passthrough_witness :
    ∃ r, parseTargetWith "myhost:1234" (some ⟨"myhost", "", "", "", ""⟩) = .ok r ∧
      r.address = "myhost:1234" ∧ r.wasURL = false ∧ r.useTLS = false :=
  (C6_parseTarget_total_passthrough "myhost:1234" (some ⟨"myhost", "", "", "", ""⟩)).2.2
    ⟨"myhost", "", "", "", ""⟩ rfl (by decide) (by decide)

/-- C7 counterexample: the claim says the server-name override (-servername)
is a fatal configuration error whenever the active mode is not TLS; but with
-plaintext set and -servername supplied, negotiation succeeds — the
validation at lines 589-609 never examines the -servername flag. -/
theorem C7_counterexample_servername_plaintext :
    negotiateTransport ⟨true, false, false, "", "", "srv.example.com", "", "", []⟩ none =
      .ok { usetls := false, forcePlaintext := true } := by decide

/-- C7 as amended: when the active mode is not TLS, supplying -insecure, a
client certificate, or a client key is a fatal configuration error reported
before dialing; the server-name override (-servername) is not validated at
all — the checks are independent of its value, so it is silently ignored. -/
theorem C7_amended_tls_only_flags (fl : Flags) (usetls : Bool) (h : usetls = false) :
    (fl.insecure = true → ∃ e, validateTransportFlags fl usetls = .error e) ∧
    (fl.cert ≠ "" → ∃ e, validateTransportFlags fl usetls = .error e) ∧
    (fl.key ≠ "" → ∃ e, validateTransportFlags fl usetls = .error e) ∧
    (∀ s, validateTransportFlags { fl with serverName := s } usetls =
        validateTransportFlags fl usetls) := by
  subst h
  refine ⟨?_, ?_, ?_, fun s => rfl⟩
  · intro hx
    unfold validateTransportFlags
    cases hpa : (fl.plaintext && fl.usealts) <;> simp [hpa, hx]
  · intro hx
    unfold validateTransportFlags
    cases hpa : (fl.plaintext && fl.usealts) <;>
      cases hin : fl.insecure <;> simp [hpa, hin, hx]
  · intro hx
    unfold validateTransportFlags
    cases hpa : (fl.plaintext && fl.usealts) <;>
      cases hin : fl.insecure <;>
        by_cases hc : fl.cert = "" <;> simp [hpa, hin, hc, hx]

/-- C7 witness for the amended claim: -insecure in non-TLS mode is rejected,
and changing -servername does not change the validation outcome. -/
theorem C7_amended_tls_only_flags_witness :
    (∃ e, validateTransportFlags ⟨false, false, true, "", "", "", "", "", []⟩ false =
        .error e) ∧
    validateTransportFlags ⟨false, false, false, "", "", "any.server.name", "", "", []⟩ false =
      validateTransportFlags ⟨false, false, false, "", "", "", "", "", []⟩ false :=
  ⟨(C7_amended_tls_only_flags ⟨false, false, true, "", "", "", "", "", []⟩ false rfl).1 rfl,
   (C7_amended_tls_only_flags ⟨false, false, false, "", "", "", "", "", []⟩ false
      rfl).2.2.2 "any.server.name"⟩

/-- C8: the dial address recomposed for an https URL with an IPv6 literal host
does NOT re-enclose the literal in brackets: for https://[::1]/svc the code
produces the address ::1:443 (the Hostname accessor strips the brackets and
the code concatenates host, colon, port), not the bracketed form required by
the spec and by the usage text of the program itself (grpcurl.go lines
1044-1046). -/
theorem C8_ipv6_brackets_lost :
    parseTargetWith "https://[::1]/svc" (some ⟨"https", "[::1]", "/svc", "", ""⟩) =
      .ok { address := "::1:443", scheme := "https", host := "::1", port := "443",
            path := "/svc", useTLS := true, wasURL := true } ∧
    "::1:443" ≠ "[" ++ "::1" ++ "]" ++ ":" ++ "443" := by
  constructor <;> decide

/-- C10: when the target was resolved as a URL with a path other than empty or
a bare slash, the TLS ServerName used for certificate verification is
overwritten with the parsed hostname, whatever it was before (in particular
regardless of -servername and -authority, which this code never reads). -/
theorem C10_tls_server_name_override (orig : String) (pa : parsedTarget)
    (hw : pa.wasURL = true) (h1 : pa.path ≠ "") (h2 : pa.path ≠ "/") :
    tlsServerName orig (some pa) = pa.host := by
  simp [tlsServerName, hw, h1, h2]

/-- C10 witness: for the parsed target of https://example.com/svc, the TLS
server name that ClientTLSConfig had set to the host:port dial address is
overwritten with just the hostname. -/
theorem C10_tls_server_name_override_witness :
    tlsServerName "example.com:443"
      (some ⟨"example.com:443", "https", "example.com", "443", "/svc", true, true⟩) =
      "example.com" :=
  C10_tls_server_name_override "example.com:443"
    ⟨"example.com:443", "https", "example.com", "443", "/svc", true, true⟩
    rfl (by decide) (by decide)

end Grpcurl
